import Mathlib

/-!
The repository alpb-lambda-functions: the token-validation handler and the two
mirror jobs.

A shallow embedding of `src/functions/validateToken/index.mjs`,
`src/functions/update_league_leaders/index.mjs` and
`src/functions/update_standings/index.mjs`.

JavaScript values are a small datatype, a thrown exception is `Except.error`
carrying the exception's `message`, and the libraries the handlers call
(`crypto`, `JSON.parse`, `pg`, `fetch`, the S3 client) are parameters of the
model: the theorems hold for every behaviour of these collaborators.
`console.log` / `console.error` have no effect on a result and are left out.
-/

namespace AlpbLambda

/-! ## JavaScript values -/

/-- The JavaScript values a JSON-shaped input can hold, plus `undefined`.
Numbers are represented by integer values: no branch of the handlers looks at a
number beyond its truthiness and strict equality. -/
inductive JsVal where
  | undefined : JsVal
  | null : JsVal
  | bool (b : Bool) : JsVal
  | num (n : Int) : JsVal
  | str (s : String) : JsVal
  | arr (items : List JsVal) : JsVal
  | obj (fields : List (String × JsVal)) : JsVal

instance : Inhabited JsVal := ⟨JsVal.undefined⟩

/-- Truthiness, as tested by the operator `!`: `undefined`, `null`, `false`, `0`
and the empty string are falsy, every other value is truthy. -/
def isTruthy : JsVal → Bool
  | .undefined => false
  | .null => false
  | .bool b => b
  | .num n => n != 0
  | .str s => s != ""
  | .arr _ => true
  | .obj _ => true

/-- Strict equality `===` between two values that come from two different
sources (the decrypted token, the stored session, the event): primitives are
compared by type and value, without coercion; two objects or arrays are never
the same reference. -/
def strictEq : JsVal → JsVal → Bool
  | .undefined, .undefined => true
  | .null, .null => true
  | .bool a, .bool b => a == b
  | .num a, .num b => a == b
  | .str a, .str b => a == b
  | _, _ => false

/-- The message of the `TypeError` raised by a property read on `undefined` or
`null`. -/
def cannotRead (what key : String) : String :=
  "Cannot read properties of " ++ what ++ " (reading \x27" ++ key ++ "\x27)"

/-- The value an object with the given fields holds under a key: `undefined`
when the key is missing. -/
def field (fields : List (String × JsVal)) (key : String) : JsVal :=
  (fields.lookup key).getD .undefined

/-- A request field is present when the guard of line 39 of validateToken
(`!event.alpbToken || !event.widgetId`) lets it pass: the event holds a truthy
value under the key. -/
def present (fields : List (String × JsVal)) (key : String) : Bool :=
  isTruthy (field fields key)

/-- A request field is missing when it is not present: the key is absent from
the event (it reads `undefined`) or holds a falsy value. -/
def missing (fields : List (String × JsVal)) (key : String) : Bool :=
  !present fields key

/-- Property read `v[key]` (also one name of a destructuring pattern), for the
keys the handlers use (`alpbToken`, `widgetId`, `userId`, `publicWidgetId`,
`sessionId`, `sess`, `user`, `user_id`), none of which is a built-in property
of a primitive or of an array: a read on `undefined` or `null` throws, a read
on an object gives the field or `undefined`, a read on anything else gives
`undefined`. -/
def getProp (v : JsVal) (key : String) : Except String JsVal :=
  match v with
  | .undefined => .error (cannotRead "undefined" key)
  | .null => .error (cannotRead "null" key)
  | .obj fields => .ok (field fields key)
  | _ => .ok .undefined

/-! ## validateToken -/

namespace ValidateToken

/-- The body of a response. -/
structure Body where
  success : Bool
  message : String
  deriving DecidableEq, Repr

/-- The response envelope of the handler. -/
structure Response where
  statusCode : Nat
  headers : List (String × String)
  body : Body
  deriving DecidableEq, Repr

/-- The line `const ALGORITHM = 'aes-256-cbc'`. -/
def ALGORITHM : String := "aes-256-cbc"

/-- The module constant `headers`. -/
def headers : List (String × String) :=
  [("Content-Type", "application/json"),
   ("Access-Control-Allow-Origin", "*"),
   ("Access-Control-Allow-Methods", "POST,PATCH,OPTIONS")]

/-- The library calls of `decryptToken`, whose code is not part of the
repository: `Buffer.from(_, 'hex')`, `crypto.createDecipheriv`,
`decipher.update(_, 'hex', 'utf8')`, `decipher.final('utf8')` and `JSON.parse`,
together with the process-wide `TOKEN_SECRET` (absent when the environment
variable is not set). Each call that can throw returns the message of what it
throws. -/
structure Crypto where
  /-- The state of a decipher object. -/
  Decipher : Type
  TOKEN_SECRET : Option String
  bufferFromHex : String → List Nat
  createDecipheriv : String → Option String → List Nat → Except String Decipher
  update : Decipher → String → Except String (String × Decipher)
  final : Decipher → Except String String
  jsonParse : String → Except String JsVal

/-- The method `String.prototype.split` with a one-character separator, on the
characters of the string: the pieces between the occurrences of the separator,
in order; a string without the separator is its own single piece. -/
def splitChars (sep : Char) : List Char → List (List Char)
  | [] => [[]]
  | c :: cs =>
    if c = sep then [] :: splitChars sep cs
    else
      match splitChars sep cs with
      | [] => [[c]]
      | p :: ps => (c :: p) :: ps

/-- The call `encryptedToken.split(':')`. -/
def split (s : String) : List String :=
  (splitChars ':' s.data).map String.mk

/-- The message of the `TypeError` that `Buffer.from(undefined, 'hex')` throws. -/
def bufferFromUndefined : String :=
  "The first argument must be of type string or an instance of Buffer, ArrayBuffer, " ++
  "or Array or an Array-like Object. Received undefined"

/-- The message of the `TypeError` that `decipher.update(undefined, 'hex',
'utf8')` throws. -/
def updateUndefined : String :=
  "The \"data\" argument must be of type string or an instance of Buffer, TypedArray, " ++
  "or DataView. Received undefined"

/-- The function `decryptToken` (lines 24-33). A token that is not a string
has no method `split`; `parts[0]` is always there, since `split` returns at
least one piece; `parts[1]` is `undefined` when the token holds no colon, which
`decipher.update` rejects after the decipher was created. -/
def decryptToken (c : Crypto) (encryptedToken : JsVal) : Except String JsVal :=
  match encryptedToken with
  | .str s =>
    let parts := split s
    match parts[0]? with
    | none => .error bufferFromUndefined
    | some p0 =>
      let iv := c.bufferFromHex p0
      let encryptedText := parts[1]?
      match c.createDecipheriv ALGORITHM c.TOKEN_SECRET iv with
      | .error e => .error e
      | .ok decipher =>
        match encryptedText with
        | none => .error updateUndefined
        | some text =>
          match c.update decipher text with
          | .error e => .error e
          | .ok (decrypted, decipher1) =>
            match c.final decipher1 with
            | .error e => .error e
            | .ok last => c.jsonParse (decrypted ++ last)
  | _ => .error "encryptedToken.split is not a function"

/-- The result of `pool.query` for a `SELECT`: the rows, each an object with
one field per selected column. -/
structure QueryResult where
  rows : List JsVal

/-- The field `rowCount` of a query result: for a `SELECT`, the number of rows. -/
def QueryResult.rowCount (r : QueryResult) : Nat := r.rows.length

/-- The connection pool: `pool.query(text, values)` either resolves to a result
or rejects with an error, whose message is kept. -/
structure Pool where
  query : String → List JsVal → Except String QueryResult

/-- The text of the session query (line 57). -/
def SESSION_SQL : String := "SELECT sess FROM session WHERE sid = $1"

/-- A call to one of the two collaborators of the handler. -/
inductive Call where
  | decryptToken (encryptedToken : JsVal) : Call
  | query (text : String) (values : List JsVal) : Call

/-- The 400 response (lines 40-47). -/
def badRequest : Response :=
  { statusCode := 400, headers := headers,
    body := { success := false, message := "Missing required field(s) in request body" } }

/-- The 403 response (lines 64-71). -/
def unauthorized : Response :=
  { statusCode := 403, headers := headers,
    body := { success := false, message := "Unauthorized" } }

/-- The 200 response (lines 74-81). -/
def validated : Response :=
  { statusCode := 200, headers := headers,
    body := { success := true, message := "Token validated successfully" } }

/-- The 500 response of the `catch` block (lines 84-91). -/
def internalFailure (message : String) : Response :=
  { statusCode := 500, headers := headers,
    body := { success := false, message := "Could not validate token: " ++ message } }

/-- The message of the `TypeError` raised when the pattern of line 50 is
matched against `null` or `undefined`. -/
def cannotDestructure (what : String) : String :=
  "Cannot destructure property \x27userId\x27 of \x27decryptToken(...)\x27 as it is " ++
  what ++ "."

/-- The destructuring `const { userId, publicWidgetId: reqPublicWidgetId,
sessionId } = ...` of line 50: the triple `(userId, reqPublicWidgetId,
sessionId)`. It throws on `null` and on `undefined`. -/
def destructureClaims (claims : JsVal) : Except String (JsVal × JsVal × JsVal) :=
  match claims with
  | .undefined => .error (cannotDestructure "undefined")
  | .null => .error (cannotDestructure "null")
  | _ =>
    match getProp claims "userId" with
    | .error e => .error e
    | .ok userId =>
      match getProp claims "publicWidgetId" with
      | .error e => .error e
      | .ok reqPublicWidgetId =>
        match getProp claims "sessionId" with
        | .error e => .error e
        | .ok sessionId => .ok (userId, reqPublicWidgetId, sessionId)

/-- The reads `row["sess"]["user"]["user_id"]` on one row. -/
def rowUserId (row : JsVal) : Except String JsVal :=
  match getProp row "sess" with
  | .error e => .error e
  | .ok sess =>
    match getProp sess "user" with
    | .error e => .error e
    | .ok user => getProp user "user_id"

/-- The expression `sessionRes.rows[0]["sess"]["user"]["user_id"]` of line 63;
an index past the end of an array reads `undefined`. -/
def sessionUserId (sessionRes : QueryResult) : Except String JsVal :=
  rowUserId (sessionRes.rows[0]?.getD .undefined)

/-- The condition of line 63, with the left-to-right short circuit of `||`:
`sessionRes.rowCount === 0 || sessionRes.rows[0]["sess"]["user"]["user_id"] !==
userId || publicWidgetId !== reqPublicWidgetId`. -/
def denied (sessionRes : QueryResult) (userId publicWidgetId reqPublicWidgetId : JsVal) :
    Except String Bool :=
  if sessionRes.rowCount = 0 then .ok true
  else
    match sessionUserId sessionRes with
    | .error e => .error e
    | .ok stored =>
      if !strictEq stored userId then .ok true
      else .ok (!strictEq publicWidgetId reqPublicWidgetId)

/-- The `try` block of the handler (lines 37-81): what it returns or the
message of what it throws, and the calls it made to `decryptToken` and to
`pool.query`, in order. -/
def handlerTry (c : Crypto) (pool : Pool) (event : JsVal) :
    Except String Response × List Call :=
  match getProp event "alpbToken" with
  | .error e => (.error e, [])
  | .ok alpbToken =>
    if !isTruthy alpbToken then (.ok badRequest, [])
    else
      match getProp event "widgetId" with
      | .error e => (.error e, [])
      | .ok publicWidgetId =>
        if !isTruthy publicWidgetId then (.ok badRequest, [])
        else
          match decryptToken c alpbToken with
          | .error e => (.error e, [Call.decryptToken alpbToken])
          | .ok claims =>
            match destructureClaims claims with
            | .error e => (.error e, [Call.decryptToken alpbToken])
            | .ok (userId, reqPublicWidgetId, sessionId) =>
              let calls := [Call.decryptToken alpbToken, Call.query SESSION_SQL [sessionId]]
              match pool.query SESSION_SQL [sessionId] with
              | .error e => (.error e, calls)
              | .ok sessionRes =>
                match denied sessionRes userId publicWidgetId reqPublicWidgetId with
                | .error e => (.error e, calls)
                | .ok true => (.ok unauthorized, calls)
                | .ok false => (.ok validated, calls)

/-- The handler (lines 35-93): the `try` block, with anything it throws turned
into the 500 response by the `catch` block. The result is the response and
the calls made to the collaborators. -/
def handler (c : Crypto) (pool : Pool) (event : JsVal) : Response × List Call :=
  match handlerTry c pool event with
  | (.ok response, calls) => (response, calls)
  | (.error message, calls) => (internalFailure message, calls)

/-! ### A test double for the collaborators -/

/-- The value of a hexadecimal digit. -/
def hexVal (ch : Char) : Option Nat :=
  if 48 ≤ ch.toNat ∧ ch.toNat ≤ 57 then some (ch.toNat - 48)
  else if 97 ≤ ch.toNat ∧ ch.toNat ≤ 102 then some (ch.toNat - 87)
  else if 65 ≤ ch.toNat ∧ ch.toNat ≤ 70 then some (ch.toNat - 55)
  else none

/-- Hexadecimal decoding as `Buffer.from(_, 'hex')` does it: two digits a byte,
stopping at the first pair that is not two hexadecimal digits. -/
def hexBytes : List Char → List Nat
  | a :: b :: rest =>
    match hexVal a, hexVal b with
    | some x, some y => (16 * x + y) :: hexBytes rest
    | _, _ => []
  | _ => []

/-- Whether a segment holds hexadecimal digits only. -/
def isHex (segment : String) : Bool :=
  segment.data.all (fun ch => (hexVal ch).isSome)

/-- The plaintext of the credential the test double decrypts to claims. -/
def stubPlaintext : String :=
  "\x7b\"userId\":\"u1\",\"publicWidgetId\":\"w1\",\"sessionId\":\"s1\"\x7d"

/-- The claims of that credential. -/
def stubClaims : JsVal :=
  .obj [("userId", .str "u1"), ("publicWidgetId", .str "w1"), ("sessionId", .str "s1")]

/-- A test double for the cipher: an initialisation vector must be 16 bytes,
the ciphertext `c1a1` decrypts to `stubPlaintext`, the ciphertext `0a11` to the
text `null`, and every other ciphertext is rejected by `final`; `jsonParse`
knows these two plaintexts only. -/
def stubCrypto : Crypto where
  Decipher := Bool
  TOKEN_SECRET := some "0123456789abcdef0123456789abcdef"
  bufferFromHex := fun s => hexBytes s.data
  createDecipheriv := fun _ _ iv =>
    if iv.length = 16 then .ok false else .error "Invalid initialization vector"
  update := fun _ text =>
    if text = "c1a1" then .ok (stubPlaintext, true)
    else if text = "0a11" then .ok ("null", true)
    else .ok ("", false)
  final := fun d => if d then .ok "" else .error "bad decrypt"
  jsonParse := fun s =>
    if s = stubPlaintext then .ok stubClaims
    else if s = "null" then .ok .null
    else .error "Unexpected token in JSON"

/-- A credential the test double decrypts to `stubClaims`. -/
def stubToken : String := "000102030405060708090a0b0c0d0e0f:c1a1"

/-- A test double for the session store: the rows it holds for session `s1`,
no row for any other session. -/
def stubPool (rows : List JsVal) : Pool where
  query := fun _ values =>
    match values with
    | [.str sid] => if sid = "s1" then .ok { rows := rows } else .ok { rows := [] }
    | _ => .ok { rows := [] }

/-- A session store that cannot be reached. -/
def downPool : Pool where
  query := fun _ _ => .error "connect ETIMEDOUT"

/-- A session row whose `sess.user.user_id` is the given value. -/
def rowOf (userId : JsVal) : JsVal :=
  .obj [("sess", .obj [("user", .obj [("user_id", userId)])])]

/-- The fields of an event with the two request fields. -/
def eventFields (alpbToken widgetId : JsVal) : List (String × JsVal) :=
  [("alpbToken", alpbToken), ("widgetId", widgetId)]

/-- An event with the two request fields. -/
def eventOf (alpbToken widgetId : JsVal) : JsVal :=
  .obj (eventFields alpbToken widgetId)

end ValidateToken

/-! ## The two mirror jobs -/

namespace MirrorJob

/-- The environment variables the jobs read; a variable that is not set reads
`undefined`. `BUCKET_NAME` is `LEADERS_BUCKET_NAME` for one job and
`STANDINGS_BUCKET_NAME` for the other. -/
structure Env where
  BASE_URL : Option String
  SEASON_ID : Option String
  API_KEY : Option String
  SEASON_YEAR : Option String
  BUCKET_NAME : Option String

/-- The argument of `PutObjectCommand`. -/
structure PutObject where
  Bucket : Option String
  Key : String
  Body : String
  ContentType : String

/-- The collaborators of a job: `fetch(url, apikey)` resolves to a response,
whose `json()` resolves to a value, or either rejects with an error (its
message is kept); `new Date().toISOString()`; `JSON.stringify`; `s3.send`. -/
structure World where
  fetch : String → Option String → Except String (Except String JsVal)
  now : String
  stringify : JsVal → String
  send : PutObject → Except String Unit

/-- The report of a job. The 200 report of the source has no `headers`. -/
structure Report where
  statusCode : Nat
  headers : Option JsVal
  success : Bool
  message : String

/-- Interpolation of an environment variable in a template literal. -/
def interp : Option String → String
  | some s => s
  | none => "undefined"

/-- An environment variable as a value. -/
def envVal : Option String → JsVal
  | some s => .str s
  | none => .undefined

/-- Replaces the value under a key of an object, or adds the key at the end. -/
def setField (key : String) (v : JsVal) : List (String × JsVal) → List (String × JsVal)
  | [] => [(key, v)]
  | (k, w) :: rest => if k = key then (k, v) :: rest else (k, w) :: setField key v rest

/-- The assignment `res[key] = v` in a module (strict mode): it throws on
`null`, `undefined` and on a primitive; on an array it adds a property that
`JSON.stringify` does not print. -/
def setProp (res : JsVal) (key : String) (v : JsVal) : Except String JsVal :=
  match res with
  | .obj fields => .ok (.obj (setField key v fields))
  | .arr items => .ok (.arr items)
  | .undefined => .error ("Cannot set properties of undefined (setting \x27" ++ key ++ "\x27)")
  | .null => .error ("Cannot set properties of null (setting \x27" ++ key ++ "\x27)")
  | _ => .error ("Cannot create property \x27" ++ key ++ "\x27 on a primitive value")

/-- The identifiers a job module binds at its top level (imports and `const`
declarations), with their values; the imported bindings and `s3` are objects
whose content plays no role. The two modules bind the same names. -/
def moduleScope (env : Env) : List (String × JsVal) :=
  [("S3Client", .obj []), ("PutObjectCommand", .obj []), ("dotenv", .obj []),
   ("BASE_URL", envVal env.BASE_URL), ("SEASON_ID", envVal env.SEASON_ID),
   ("API_KEY", envVal env.API_KEY), ("SEASON_YEAR", envVal env.SEASON_YEAR),
   ("BUCKET_NAME", envVal env.BUCKET_NAME), ("s3", .obj []), ("handler", .obj [])]

/-- The identifiers bound where the `try` block builds its report: the module
scope and the locals of the block. -/
def tryScope (env : Env) (response res key command : JsVal) : List (String × JsVal) :=
  [("response", response), ("res", res), ("key", key), ("command", command)] ++ moduleScope env

/-- The identifiers bound in the `catch` block: the module scope and `error`. -/
def catchScope (env : Env) (error : JsVal) : List (String × JsVal) :=
  ("error", error) :: moduleScope env

/-- Evaluation of an identifier that is not a global of the runtime: its
value in the scope, or the `ReferenceError` of an unbound name. -/
def lookupVar (scope : List (String × JsVal)) (name : String) : Except String JsVal :=
  match scope.lookup name with
  | some v => .ok v
  | none => .error (name ++ " is not defined")

/-- String conversion of a value inside a template literal, for the values an
identifier of a job module can hold. -/
def display : JsVal → String
  | .str s => s
  | .undefined => "undefined"
  | .null => "null"
  | .bool true => "true"
  | .bool false => "false"
  | _ => "[object Object]"

/-- What differs between the two job modules: the path segment of the feed,
the object key, and the wording of the two messages. -/
structure Job where
  feed : String
  keyOf : String → String
  uploaded : String
  failed : String

/-- The `try` block of a job handler (lines 20-50): the report it returns or
the message of what it throws. The report is built from the identifier
`bucketName`. -/
def handlerTry (job : Job) (env : Env) (w : World) : Except String Report :=
  let url := interp env.BASE_URL ++ "/baseball/season/" ++ job.feed ++ "/" ++
    interp env.SEASON_ID ++ "/json"
  match w.fetch url env.API_KEY with
  | .error e => .error e
  | .ok response =>
    match response with
    | .error e => .error e
    | .ok res =>
      match setProp res "year" (envVal env.SEASON_YEAR) with
      | .error e => .error e
      | .ok res1 =>
        match setProp res1 "updatedAt" (.str w.now) with
        | .error e => .error e
        | .ok res2 =>
          let key := job.keyOf (interp env.SEASON_YEAR)
          let command : PutObject :=
            { Bucket := env.BUCKET_NAME, Key := key, Body := w.stringify res2,
              ContentType := "application/json" }
          match w.send command with
          | .error e => .error e
          | .ok _ =>
            match lookupVar (tryScope env (.obj []) res2 (.str key) (.obj [])) "bucketName" with
            | .error e => .error e
            | .ok bucketName =>
              .ok { statusCode := 200, headers := none, success := true,
                    message := job.uploaded ++ display bucketName ++ "/" ++ key }

/-- A job handler (lines 19-63): the `try` block, and the `catch` block that
builds the 500 report from the identifier `headers`. The result is the report
the handler resolves to, or the message of the error it rejects with. -/
def handler (job : Job) (env : Env) (w : World) : Except String Report :=
  match handlerTry job env w with
  | .ok report => .ok report
  | .error message =>
    match lookupVar (catchScope env (.str message)) "headers" with
    | .error e => .error e
    | .ok headers =>
      .ok { statusCode := 500, headers := some headers, success := false,
            message := job.failed ++ message }

end MirrorJob

namespace UpdateLeagueLeaders

/-- The module `update_league_leaders`. -/
def job : MirrorJob.Job :=
  { feed := "stats",
    keyOf := fun year => "league-leaders/" ++ year ++ "-league-leaders.json",
    uploaded := "Successfully uploaded league leaders to ",
    failed := "Could not update league leaders: " }

/-- The handler of `update_league_leaders/index.mjs`. -/
def handler (env : MirrorJob.Env) (w : MirrorJob.World) : Except String MirrorJob.Report :=
  MirrorJob.handler job env w

end UpdateLeagueLeaders

namespace UpdateStandings

/-- The module `update_standings`. -/
def job : MirrorJob.Job :=
  { feed := "standings",
    keyOf := fun year => "standings/" ++ year ++ "-standings.json",
    uploaded := "Successfully uploaded league standings to ",
    failed := "Could not update standings: " }

/-- The handler of `update_standings/index.mjs`. -/
def handler (env : MirrorJob.Env) (w : MirrorJob.World) : Except String MirrorJob.Report :=
  MirrorJob.handler job env w

end UpdateStandings

/-! ## Theorems -/

namespace ValidateToken

/-! ### Shared lemmas -/

theorem getProp_obj (fields : List (String × JsVal)) (key : String) :
    getProp (.obj fields) key = .ok (field fields key) := rfl

/-- The handler on an event that passes the guard, when decryption throws. -/
theorem handler_decrypt_error (c : Crypto) (pool : Pool) (fields : List (String × JsVal))
    (e : String)
    (ha : present fields "alpbToken" = true) (hw : present fields "widgetId" = true)
    (hd : decryptToken c (field fields "alpbToken") = .error e) :
    handler c pool (.obj fields)
      = (internalFailure e, [Call.decryptToken (field fields "alpbToken")]) := by
  simp only [present] at ha hw
  simp [handler, handlerTry, getProp, ha, hw, hd]

/-- The handler on an event that passes the guard, when the session query
rejects. -/
theorem handler_query_error (c : Crypto) (pool : Pool) (fields : List (String × JsVal))
    (claims userId reqPublicWidgetId sessionId : JsVal) (e : String)
    (ha : present fields "alpbToken" = true) (hw : present fields "widgetId" = true)
    (hd : decryptToken c (field fields "alpbToken") = .ok claims)
    (hc : destructureClaims claims = .ok (userId, reqPublicWidgetId, sessionId))
    (hq : pool.query SESSION_SQL [sessionId] = .error e) :
    handler c pool (.obj fields)
      = (internalFailure e,
          [Call.decryptToken (field fields "alpbToken"), Call.query SESSION_SQL [sessionId]]) := by
  simp only [present] at ha hw
  simp [handler, handlerTry, getProp, ha, hw, hd, hc, hq]

/-- The handler on an event that passes the guard, when the session query
resolves: the response is decided by the condition of line 63. -/
theorem handler_query_ok (c : Crypto) (pool : Pool) (fields : List (String × JsVal))
    (claims userId reqPublicWidgetId sessionId : JsVal) (sessionRes : QueryResult)
    (ha : present fields "alpbToken" = true) (hw : present fields "widgetId" = true)
    (hd : decryptToken c (field fields "alpbToken") = .ok claims)
    (hc : destructureClaims claims = .ok (userId, reqPublicWidgetId, sessionId))
    (hq : pool.query SESSION_SQL [sessionId] = .ok sessionRes) :
    (handler c pool (.obj fields)).1
      = match denied sessionRes userId (field fields "widgetId") reqPublicWidgetId with
        | .error e => internalFailure e
        | .ok true => unauthorized
        | .ok false => validated := by
  simp only [present] at ha hw
  simp only [handler, handlerTry, getProp, ha, hw, hd, hc, hq]
  cases hden : denied sessionRes userId (field fields "widgetId") reqPublicWidgetId with
  | error e => simp
  | ok b => cases b <;> simp

theorem denied_no_rows (sessionRes : QueryResult) (u w r : JsVal)
    (h0 : sessionRes.rows = []) : denied sessionRes u w r = .ok true := by
  simp [denied, QueryResult.rowCount, h0]

theorem denied_row (sessionRes : QueryResult) (u w r row stored : JsVal) (rest : List JsVal)
    (hr : sessionRes.rows = row :: rest) (hs : rowUserId row = .ok stored) :
    denied sessionRes u w r = .ok (!strictEq stored u || !strictEq w r) := by
  simp [denied, QueryResult.rowCount, sessionUserId, hr, hs]
  cases strictEq stored u <;> simp

theorem splitChars_append_sep (sep : Char) (a rest : List Char) (ha : sep ∉ a) :
    splitChars sep (a ++ sep :: rest) = a :: splitChars sep rest := by
  induction a with
  | nil => simp [splitChars]
  | cons x xs ih =>
    have hx : x ≠ sep := fun hxs => ha (by simp [hxs])
    have hxs : sep ∉ xs := fun hm => ha (List.mem_cons_of_mem _ hm)
    simp [splitChars, hx, ih hxs]

theorem splitChars_no_sep (sep : Char) (a : List Char) (ha : sep ∉ a) :
    splitChars sep a = [a] := by
  induction a with
  | nil => simp [splitChars]
  | cons x xs ih =>
    have hx : x ≠ sep := fun hxs => ha (by simp [hxs])
    have hxs : sep ∉ xs := fun hm => ha (List.mem_cons_of_mem _ hm)
    simp [splitChars, hx, ih hxs]

/-- The pieces of `a:b:t`, for `a` and `b` without a colon. -/
theorem split_three (a b t : String) (ha : ':' ∉ a.data) (hb : ':' ∉ b.data) :
    split (a ++ ":" ++ b ++ ":" ++ t) = a :: b :: split t := by
  have hd : (a ++ ":" ++ b ++ ":" ++ t).data
      = a.data ++ ':' :: (b.data ++ ':' :: t.data) := by
    simp [String.data_append]
  simp [split, hd, splitChars_append_sep _ _ _ ha, splitChars_append_sep _ _ _ hb]

/-- The pieces of `a:b`, for `a` and `b` without a colon. -/
theorem split_two (a b : String) (ha : ':' ∉ a.data) (hb : ':' ∉ b.data) :
    split (a ++ ":" ++ b) = [a, b] := by
  have hd : (a ++ ":" ++ b).data = a.data ++ ':' :: b.data := by
    simp [String.data_append]
  simp [split, hd, splitChars_append_sep _ _ _ ha, splitChars_no_sep _ _ hb]

/-- Two tokens with the same first two pieces decrypt alike. -/
theorem decryptToken_of_pieces (c : Crypto) (s1 s2 p0 p1 : String) (m1 m2 : List String)
    (h1 : split s1 = p0 :: p1 :: m1) (h2 : split s2 = p0 :: p1 :: m2) :
    decryptToken c (.str s1) = decryptToken c (.str s2) := by
  simp [decryptToken, h1, h2]

/-- The response to an event depends on `alpbToken` through its truthiness and
what it decrypts to. -/
theorem handler_response_congr (c : Crypto) (pool : Pool) (f1 f2 : List (String × JsVal))
    (ht : isTruthy (field f1 "alpbToken") = isTruthy (field f2 "alpbToken"))
    (hd : decryptToken c (field f1 "alpbToken") = decryptToken c (field f2 "alpbToken"))
    (hw : field f1 "widgetId" = field f2 "widgetId") :
    (handler c pool (.obj f1)).1 = (handler c pool (.obj f2)).1 := by
  simp only [handler, handlerTry, getProp, ht, hd, hw]
  cases isTruthy (field f2 "alpbToken")
  · simp
  cases isTruthy (field f2 "widgetId")
  · simp
  cases h1 : decryptToken c (field f2 "alpbToken") with
  | error e => simp
  | ok claims =>
    cases h2 : destructureClaims claims with
    | error e => simp [h2]
    | ok triple =>
      obtain ⟨userId, reqPublicWidgetId, sessionId⟩ := triple
      cases h3 : pool.query SESSION_SQL [sessionId] with
      | error e => simp [h2, h3]
      | ok sessionRes =>
        cases h4 : denied sessionRes userId (field f2 "widgetId") reqPublicWidgetId with
        | error e => simp [h2, h3, h4]
        | ok b => cases b <;> simp [h2, h3, h4]

theorem isTruthy_str (s : String) (h : s.data ≠ []) : isTruthy (.str s) = true := by
  have hne : s ≠ "" := fun hs => h (by rw [hs])
  simp [isTruthy, hne]

theorem splitChars_ne_nil (sep : Char) (l : List Char) : splitChars sep l ≠ [] := by
  cases l with
  | nil => simp [splitChars]
  | cons x xs =>
    by_cases hx : x = sep
    · simp [splitChars, hx]
    · cases hsp : splitChars sep xs <;> simp [splitChars, hx, hsp]

/-- No piece of a split holds the separator. -/
theorem splitChars_piece_no_sep (sep : Char) (l : List Char) :
    ∀ p ∈ splitChars sep l, sep ∉ p := by
  induction l with
  | nil => simp [splitChars]
  | cons x xs ih =>
    intro p hp
    by_cases hx : x = sep
    · simp only [splitChars, hx, if_true, List.mem_cons] at hp
      rcases hp with hp | hp
      · simp [hp]
      · exact ih p hp
    · cases hsp : splitChars sep xs with
      | nil => exact absurd hsp (splitChars_ne_nil sep xs)
      | cons q qs =>
        simp only [splitChars, hx, if_false, hsp, List.mem_cons] at hp
        rcases hp with hp | hp
        · have hq : sep ∉ q := ih q (by simp [hsp])
          rw [hp]
          intro hmem
          rcases List.mem_cons.mp hmem with h | h
          · exact hx h.symm
          · exact hq h
        · exact ih p (by simp [hsp, hp])

/-- No piece of `split` holds a colon. -/
theorem split_piece_no_colon (s p : String) (hp : p ∈ split s) : ':' ∉ p.data := by
  simp only [split, List.mem_map] at hp
  obtain ⟨q, hq, rfl⟩ := hp
  exact splitChars_piece_no_sep _ _ q hq

theorem field_eventFields_token (a w : JsVal) : field (eventFields a w) "alpbToken" = a := by
  simp [field, eventFields, List.lookup]

theorem field_eventFields_widget (a w : JsVal) : field (eventFields a w) "widgetId" = w := by
  simp [field, eventFields, List.lookup]

/-- On a token with a single piece `decryptToken` throws, whatever the
libraries do: `parts[1]` is `undefined`. -/
theorem decryptToken_one_segment (c : Crypto) (s : String) (h : (split s).length = 1) :
    ∃ e, decryptToken c (.str s) = .error e := by
  match hsp : split s, h with
  | [p], _ =>
    cases hc : c.createDecipheriv ALGORITHM c.TOKEN_SECRET (c.bufferFromHex p) with
    | error e => exact ⟨e, by simp [decryptToken, hsp, hc]⟩
    | ok d => exact ⟨updateUndefined, by simp [decryptToken, hsp, hc]⟩

/-- The handler on an event that passes the guard, when the destructuring of
line 50 throws. -/
theorem handler_destructure_error (c : Crypto) (pool : Pool) (fields : List (String × JsVal))
    (claims : JsVal) (e : String)
    (ha : present fields "alpbToken" = true) (hw : present fields "widgetId" = true)
    (hd : decryptToken c (field fields "alpbToken") = .ok claims)
    (hc : destructureClaims claims = .error e) :
    handler c pool (.obj fields)
      = (internalFailure e, [Call.decryptToken (field fields "alpbToken")]) := by
  simp only [present] at ha hw
  simp [handler, handlerTry, getProp, ha, hw, hd, hc]

/-- The statuses the handler answers to an event that passes the guard. -/
theorem handler_status_present (c : Crypto) (pool : Pool) (fields : List (String × JsVal))
    (ha : present fields "alpbToken" = true) (hw : present fields "widgetId" = true) :
    (handler c pool (.obj fields)).1.statusCode = 200 ∨
    (handler c pool (.obj fields)).1.statusCode = 403 ∨
    (handler c pool (.obj fields)).1.statusCode = 500 := by
  cases hd : decryptToken c (field fields "alpbToken") with
  | error e =>
    rw [handler_decrypt_error c pool fields e ha hw hd]
    simp [internalFailure]
  | ok claims =>
    cases hc : destructureClaims claims with
    | error e =>
      rw [handler_destructure_error c pool fields claims e ha hw hd hc]
      simp [internalFailure]
    | ok triple =>
      obtain ⟨userId, reqPublicWidgetId, sessionId⟩ := triple
      cases hq : pool.query SESSION_SQL [sessionId] with
      | error e =>
        rw [handler_query_error c pool fields claims userId reqPublicWidgetId sessionId e
          ha hw hd hc hq]
        simp [internalFailure]
      | ok sessionRes =>
        rw [handler_query_ok c pool fields claims userId reqPublicWidgetId sessionId sessionRes
          ha hw hd hc hq]
        cases hden : denied sessionRes userId (field fields "widgetId") reqPublicWidgetId with
        | error e => simp [internalFailure]
        | ok b => cases b <;> simp [validated, unauthorized]

/-! ### The claims about validateToken -/

/-- C1: if the handler returns statusCode 200, then the response is the
success response and all three checks hold together: the session query for the
decrypted `sessionId` returned at least one row, the first row's
`sess.user.user_id` is strictly equal to the decrypted `userId`, and
`event.widgetId` is strictly equal to the decrypted `publicWidgetId`. -/
theorem validated_only_on_full_match (c : Crypto) (pool : Pool) (event : JsVal)
    (h : (handler c pool event).1.statusCode = 200) :
    (handler c pool event).1.body.success = true ∧
    ∃ alpbToken widgetId claims userId reqPublicWidgetId sessionId sessionRes row rest stored,
      getProp event "alpbToken" = .ok alpbToken ∧
      getProp event "widgetId" = .ok widgetId ∧
      decryptToken c alpbToken = .ok claims ∧
      destructureClaims claims = .ok (userId, reqPublicWidgetId, sessionId) ∧
      pool.query SESSION_SQL [sessionId] = .ok sessionRes ∧
      sessionRes.rows = row :: rest ∧
      rowUserId row = .ok stored ∧
      strictEq stored userId = true ∧
      strictEq widgetId reqPublicWidgetId = true := by
  unfold handler handlerTry at h ⊢
  cases h1 : getProp event "alpbToken" with
  | error e => simp [h1, internalFailure] at h
  | ok alpbToken =>
    cases h2 : getProp event "widgetId" with
    | error e =>
      cases ht : isTruthy alpbToken <;> simp [h1, h2, ht, internalFailure, badRequest] at h
    | ok widgetId =>
      cases ht : isTruthy alpbToken
      · simp [h1, h2, ht, badRequest] at h
      cases hw : isTruthy widgetId
      · simp [h1, h2, ht, hw, badRequest] at h
      cases hd : decryptToken c alpbToken with
      | error e => simp [h1, h2, ht, hw, hd, internalFailure] at h
      | ok claims =>
        cases hc : destructureClaims claims with
        | error e => simp [h1, h2, ht, hw, hd, hc, internalFailure] at h
        | ok triple =>
          obtain ⟨userId, reqPublicWidgetId, sessionId⟩ := triple
          cases hq : pool.query SESSION_SQL [sessionId] with
          | error e => simp [h1, h2, ht, hw, hd, hc, hq, internalFailure] at h
          | ok sessionRes =>
            cases hrows : sessionRes.rows with
            | nil =>
              simp [h1, h2, ht, hw, hd, hc, hq, denied_no_rows sessionRes _ _ _ hrows,
                unauthorized] at h
            | cons row rest =>
              cases hs : rowUserId row with
              | error e =>
                simp [h1, h2, ht, hw, hd, hc, hq, denied, QueryResult.rowCount, sessionUserId,
                  hrows, hs, internalFailure] at h
              | ok stored =>
                have hden := denied_row sessionRes userId widgetId reqPublicWidgetId row stored
                  rest hrows hs
                cases hu : strictEq stored userId
                · simp [h1, h2, ht, hw, hd, hc, hq, hden, hu, unauthorized] at h
                cases hp : strictEq widgetId reqPublicWidgetId
                · simp [h1, h2, ht, hw, hd, hc, hq, hden, hu, hp, unauthorized] at h
                refine ⟨?_, alpbToken, widgetId, claims, userId, reqPublicWidgetId, sessionId,
                  sessionRes, row, rest, stored, rfl, rfl, hd, hc, hq, hrows, hs, hu, hp⟩
                simp [h1, h2, ht, hw, hd, hc, hq, hden, hu, hp, validated]

/-- C1, at a credential whose three checks pass. -/
theorem validated_only_on_full_match_witness :
    (handler stubCrypto (stubPool [rowOf (.str "u1")])
        (eventOf (.str stubToken) (.str "w1"))).1.statusCode = 200 ∧
    (handler stubCrypto (stubPool [rowOf (.str "u1")])
        (eventOf (.str stubToken) (.str "w1"))).1.body.success = true :=
  ⟨by decide,
   (validated_only_on_full_match stubCrypto (stubPool [rowOf (.str "u1")])
      (eventOf (.str stubToken) (.str "w1")) (by decide)).1⟩

/-- C2: when `alpbToken` or `widgetId` is missing from the event, the handler
returns statusCode 400 with body `success: false, message: "Missing required
field(s) in request body"`, and it calls neither `decryptToken` nor the
session store. -/
theorem missing_field_bad_request (c : Crypto) (pool : Pool) (fields : List (String × JsVal))
    (h : missing fields "alpbToken" = true ∨ missing fields "widgetId" = true) :
    handler c pool (.obj fields)
      = ({ statusCode := 400, headers := headers,
           body := { success := false,
                     message := "Missing required field(s) in request body" } }, []) := by
  simp only [missing, present, Bool.not_eq_true'] at h
  unfold handler handlerTry
  rcases h with h | h
  · simp [getProp, h, badRequest]
  · cases ht : isTruthy (field fields "alpbToken") <;> simp [getProp, h, ht, badRequest]

/-- C2, at an event without `alpbToken`. -/
theorem missing_field_bad_request_witness :
    missing [("widgetId", JsVal.str "w1")] "alpbToken" = true ∧
    handler stubCrypto downPool (.obj [("widgetId", .str "w1")])
      = ({ statusCode := 400, headers := headers,
           body := { success := false,
                     message := "Missing required field(s) in request body" } }, []) :=
  ⟨by decide,
   missing_field_bad_request stubCrypto downPool [("widgetId", .str "w1")] (Or.inl (by decide))⟩

/-- C3, as stated, fails, in both directions. Five malformed credentials in
events that hold both fields: one with a single segment and one with a
tampered ciphertext, on which `decryptToken` throws and the handler answers
500, not 403; one with a third segment and one with non-hexadecimal content
after the initialisation vector, which the handler validates with 200; and one
whose plaintext is `null`, on which line 50 throws and the handler answers
500. -/
theorem malformed_credential_not_403 :
    ((split "deadbeef").length = 1 ∧
      present (eventFields (.str "deadbeef") (.str "w1")) "alpbToken" = true ∧
      present (eventFields (.str "deadbeef") (.str "w1")) "widgetId" = true ∧
      (handler stubCrypto (stubPool [rowOf (.str "u1")])
        (eventOf (.str "deadbeef") (.str "w1"))).1.statusCode = 500) ∧
    ((split "000102030405060708090a0b0c0d0e0f:ffff").length = 2 ∧
      present (eventFields (.str "000102030405060708090a0b0c0d0e0f:ffff") (.str "w1")) "alpbToken" = true ∧
      (handler stubCrypto (stubPool [rowOf (.str "u1")])
        (eventOf (.str "000102030405060708090a0b0c0d0e0f:ffff") (.str "w1"))).1.statusCode = 500) ∧
    ((split "000102030405060708090a0b0c0d0e0f:c1a1:extra").length = 3 ∧
      present (eventFields (.str "000102030405060708090a0b0c0d0e0f:c1a1:extra") (.str "w1")) "alpbToken" = true ∧
      (handler stubCrypto (stubPool [rowOf (.str "u1")])
        (eventOf (.str "000102030405060708090a0b0c0d0e0f:c1a1:extra") (.str "w1"))).1.statusCode = 200) ∧
    (isHex "000102030405060708090a0b0c0d0e0fzz" = false ∧
      present (eventFields (.str "000102030405060708090a0b0c0d0e0fzz:c1a1") (.str "w1"))
        "alpbToken" = true ∧
      (handler stubCrypto (stubPool [rowOf (.str "u1")])
        (eventOf (.str "000102030405060708090a0b0c0d0e0fzz:c1a1") (.str "w1"))).1.statusCode = 200) ∧
    (decryptToken stubCrypto (.str "000102030405060708090a0b0c0d0e0f:0a11") = .ok .null ∧
      present (eventFields (.str "000102030405060708090a0b0c0d0e0f:0a11") (.str "w1")) "alpbToken" = true ∧
      (handler stubCrypto (stubPool [rowOf (.str "u1")])
        (eventOf (.str "000102030405060708090a0b0c0d0e0f:0a11") (.str "w1"))).1.statusCode = 500) := by
  refine ⟨⟨by decide, by decide, by decide, by decide⟩, ⟨by decide, by decide, by decide⟩,
    ⟨by decide, by decide, by decide⟩, ⟨by decide, by decide, by decide⟩,
    ⟨rfl, by decide, by decide⟩⟩

/-- C3, amended: for every event with both fields present whose `alpbToken` is
a string credential `s`, malformed or not, the handler makes no check of the
shape of `s`; what `decryptToken` does with `s` decides the response.
It answers 200, 403 or 500 and nothing else.
When `s` has a single segment `decryptToken` throws and the answer is 500.
Whenever `decryptToken` throws an error `e` the handler returns statusCode 500
with body `success: false, message: "Could not validate token: " + e`, after
the one call to `decryptToken` and without a query to the session store.
When the plaintext parses to `null` the answer is 500, again without a query.
Segments after the second are ignored: `s` is answered as the credential made
of its first two segments is.
And `s` is answered as every other credential that `decryptToken` treats alike
is, so a malformed credential that decrypts to claims passes or fails the
session checks as a well-formed one does. -/
theorem malformed_credential_response (c : Crypto) (pool : Pool)
    (fields : List (String × JsVal)) (s : String)
    (ha : present fields "alpbToken" = true) (hw : present fields "widgetId" = true)
    (hs : field fields "alpbToken" = .str s) :
    ((handler c pool (.obj fields)).1.statusCode = 200 ∨
      (handler c pool (.obj fields)).1.statusCode = 403 ∨
      (handler c pool (.obj fields)).1.statusCode = 500) ∧
    ((split s).length = 1 →
      (handler c pool (.obj fields)).1.statusCode = 500 ∧
      (handler c pool (.obj fields)).2 = [Call.decryptToken (.str s)]) ∧
    (∀ e, decryptToken c (.str s) = .error e →
      handler c pool (.obj fields)
        = ({ statusCode := 500, headers := headers,
             body := { success := false, message := "Could not validate token: " ++ e } },
           [Call.decryptToken (.str s)])) ∧
    (decryptToken c (.str s) = .ok .null →
      (handler c pool (.obj fields)).1.statusCode = 500 ∧
      (handler c pool (.obj fields)).2 = [Call.decryptToken (.str s)]) ∧
    (∀ p0 p1 more, split s = p0 :: p1 :: more →
      (handler c pool (.obj fields)).1
        = (handler c pool (eventOf (.str (p0 ++ ":" ++ p1)) (field fields "widgetId"))).1) ∧
    (∀ fields2 : List (String × JsVal),
      present fields2 "alpbToken" = true →
      decryptToken c (field fields2 "alpbToken") = decryptToken c (.str s) →
      field fields2 "widgetId" = field fields "widgetId" →
      (handler c pool (.obj fields2)).1 = (handler c pool (.obj fields)).1) := by
  have hthrow : ∀ e, decryptToken c (.str s) = .error e →
      handler c pool (.obj fields) = (internalFailure e, [Call.decryptToken (.str s)]) := by
    intro e he
    have h := handler_decrypt_error c pool fields e ha hw (by rw [hs]; exact he)
    rw [hs] at h
    exact h
  refine ⟨handler_status_present c pool fields ha hw, ?_, ?_, ?_, ?_, ?_⟩
  · intro h1
    obtain ⟨e, he⟩ := decryptToken_one_segment c s h1
    rw [hthrow e he]
    simp [internalFailure]
  · intro e he
    rw [hthrow e he]
    rfl
  · intro hnull
    have h := handler_destructure_error c pool fields .null (cannotDestructure "null") ha hw
      (by rw [hs]; exact hnull) rfl
    rw [hs] at h
    rw [h]
    simp [internalFailure]
  · intro p0 p1 more hsp
    have h0 : ':' ∉ p0.data := split_piece_no_colon s p0 (by simp [hsp])
    have h1 : ':' ∉ p1.data := split_piece_no_colon s p1 (by simp [hsp])
    have hdec := decryptToken_of_pieces c s (p0 ++ ":" ++ p1) p0 p1 more [] hsp
      (split_two p0 p1 h0 h1)
    have hta : isTruthy (field fields "alpbToken") = true := ha
    apply handler_response_congr c pool fields _ _ _ _
    · rw [field_eventFields_token, hta, isTruthy_str _ (by simp [String.data_append])]
    · rw [field_eventFields_token, hs]
      exact hdec
    · rw [field_eventFields_widget]
  · intro fields2 ha2 hd2 hw2
    have hta : isTruthy (field fields "alpbToken") = true := ha
    have hta2 : isTruthy (field fields2 "alpbToken") = true := ha2
    apply handler_response_congr c pool fields2 fields _ _ hw2
    · rw [hta, hta2]
    · rw [hd2, hs]

/-- C3 amended, at a credential with a single segment. -/
theorem malformed_credential_response_witness :
    (split "deadbeef").length = 1 ∧
    (handler stubCrypto downPool (eventOf (.str "deadbeef") (.str "w1"))).1.statusCode = 500 ∧
    (handler stubCrypto downPool (eventOf (.str "deadbeef") (.str "w1"))).2
      = [Call.decryptToken (.str "deadbeef")] :=
  ⟨by decide,
   (malformed_credential_response stubCrypto downPool
      (eventFields (.str "deadbeef") (.str "w1")) "deadbeef"
      (by decide) (by decide) rfl).2.1 (by decide)⟩

/-- C4: for an event with both fields present whose `alpbToken` decrypts to
claims, if the session query for `sessionId` resolves with zero rows, the
handler returns statusCode 403 with body `success: false, message:
"Unauthorized"`, whatever `widgetId`, `userId` and `publicWidgetId` are. -/
theorem no_session_row_unauthorized (c : Crypto) (pool : Pool)
    (fields : List (String × JsVal))
    (claims userId reqPublicWidgetId sessionId : JsVal) (sessionRes : QueryResult)
    (ha : present fields "alpbToken" = true) (hw : present fields "widgetId" = true)
    (hd : decryptToken c (field fields "alpbToken") = .ok claims)
    (hc : destructureClaims claims = .ok (userId, reqPublicWidgetId, sessionId))
    (hq : pool.query SESSION_SQL [sessionId] = .ok sessionRes)
    (h0 : sessionRes.rows = []) :
    (handler c pool (.obj fields)).1
      = { statusCode := 403, headers := headers,
          body := { success := false, message := "Unauthorized" } } := by
  rw [handler_query_ok c pool fields claims userId reqPublicWidgetId sessionId sessionRes
    ha hw hd hc hq, denied_no_rows sessionRes _ _ _ h0]
  rfl

/-- C4, at a valid credential and a store without the session. -/
theorem no_session_row_unauthorized_witness :
    (handler stubCrypto (stubPool []) (eventOf (.str stubToken) (.str "w1"))).1
      = { statusCode := 403, headers := headers,
          body := { success := false, message := "Unauthorized" } } :=
  no_session_row_unauthorized stubCrypto (stubPool []) (eventFields (.str stubToken) (.str "w1"))
    stubClaims (.str "u1") (.str "w1") (.str "s1") { rows := [] }
    (by decide) (by decide) rfl rfl rfl rfl

/-- C5: for an event with both fields present whose `alpbToken` decrypts to
claims, if the session query returns a row whose `sess.user.user_id` is not
strictly equal to the decrypted `userId`, the handler returns statusCode 403
with message "Unauthorized", whatever `widgetId` is. -/
theorem identity_mismatch_unauthorized (c : Crypto) (pool : Pool)
    (fields : List (String × JsVal))
    (claims userId reqPublicWidgetId sessionId : JsVal) (sessionRes : QueryResult)
    (row stored : JsVal) (rest : List JsVal)
    (ha : present fields "alpbToken" = true) (hw : present fields "widgetId" = true)
    (hd : decryptToken c (field fields "alpbToken") = .ok claims)
    (hc : destructureClaims claims = .ok (userId, reqPublicWidgetId, sessionId))
    (hq : pool.query SESSION_SQL [sessionId] = .ok sessionRes)
    (hr : sessionRes.rows = row :: rest)
    (hs : rowUserId row = .ok stored)
    (hne : strictEq stored userId = false) :
    (handler c pool (.obj fields)).1
      = { statusCode := 403, headers := headers,
          body := { success := false, message := "Unauthorized" } } := by
  rw [handler_query_ok c pool fields claims userId reqPublicWidgetId sessionId sessionRes
    ha hw hd hc hq, denied_row sessionRes _ _ _ row stored rest hr hs, hne]
  rfl

/-- C5, at a stored identity that differs from the claimed one in case only,
with the widget identifier of the credential. -/
theorem identity_mismatch_unauthorized_witness :
    strictEq (.str "U1") (.str "u1") = false ∧
    (handler stubCrypto (stubPool [rowOf (.str "U1")])
        (eventOf (.str stubToken) (.str "w1"))).1.statusCode = 403 :=
  ⟨by decide,
   congrArg Response.statusCode
    (identity_mismatch_unauthorized stubCrypto (stubPool [rowOf (.str "U1")])
      (eventFields (.str stubToken) (.str "w1"))
      stubClaims (.str "u1") (.str "w1") (.str "s1") { rows := [rowOf (.str "U1")] }
      (rowOf (.str "U1")) (.str "U1") [] (by decide) (by decide) rfl rfl rfl rfl rfl
      (by decide))⟩

/-- C6, as stated, fails: a valid credential, a `widgetId` that differs from
the decrypted `publicWidgetId`, and a session lookup that completes with a row
whose `sess` holds no `user`. The read of `user_id` throws before the widget
identifiers are compared, and the handler answers 500, not 403. -/
theorem widget_mismatch_not_always_403 :
    decryptToken stubCrypto (field (eventFields (.str stubToken) (.str "w2")) "alpbToken")
      = .ok stubClaims ∧
    destructureClaims stubClaims = .ok (.str "u1", .str "w1", .str "s1") ∧
    strictEq (field (eventFields (.str stubToken) (.str "w2")) "widgetId") (.str "w1") = false ∧
    (stubPool [.obj [("sess", .obj [])]]).query SESSION_SQL [.str "s1"]
      = .ok { rows := [.obj [("sess", .obj [])]] } ∧
    (handler stubCrypto (stubPool [.obj [("sess", .obj [])]])
        (eventOf (.str stubToken) (.str "w2"))).1
      = { statusCode := 500, headers := headers,
          body := { success := false,
                    message := "Could not validate token: " ++
                      "Cannot read properties of undefined (reading \x27user_id\x27)" } } := by
  refine ⟨rfl, rfl, by decide, rfl, by decide⟩

/-- C6, amended: for an event with both fields present whose `alpbToken`
decrypts to claims and whose `widgetId` is not strictly equal to the decrypted
`publicWidgetId`, the handler returns statusCode 403 with message
"Unauthorized" whenever the session lookup resolves with no row, or with a
first row whose `sess.user.user_id` can be read, whatever identity it holds. -/
theorem widget_mismatch_unauthorized (c : Crypto) (pool : Pool)
    (fields : List (String × JsVal))
    (claims userId reqPublicWidgetId sessionId : JsVal) (sessionRes : QueryResult)
    (ha : present fields "alpbToken" = true) (hw : present fields "widgetId" = true)
    (hd : decryptToken c (field fields "alpbToken") = .ok claims)
    (hc : destructureClaims claims = .ok (userId, reqPublicWidgetId, sessionId))
    (hne : strictEq (field fields "widgetId") reqPublicWidgetId = false)
    (hq : pool.query SESSION_SQL [sessionId] = .ok sessionRes)
    (hrow : sessionRes.rows = [] ∨
      ∃ row rest stored, sessionRes.rows = row :: rest ∧ rowUserId row = .ok stored) :
    (handler c pool (.obj fields)).1
      = { statusCode := 403, headers := headers,
          body := { success := false, message := "Unauthorized" } } := by
  rw [handler_query_ok c pool fields claims userId reqPublicWidgetId sessionId sessionRes
    ha hw hd hc hq]
  rcases hrow with h0 | ⟨row, rest, stored, hr, hs⟩
  · rw [denied_no_rows sessionRes _ _ _ h0]
    rfl
  · rw [denied_row sessionRes _ _ _ row stored rest hr hs, hne]
    simp [unauthorized]

/-- C6 amended, at a valid credential for widget `w1` presented for widget
`w2`, with a session row of the matching identity. -/
theorem widget_mismatch_unauthorized_witness :
    strictEq (.str "u1") (.str "u1") = true ∧
    (handler stubCrypto (stubPool [rowOf (.str "u1")])
        (eventOf (.str stubToken) (.str "w2"))).1.statusCode = 403 :=
  ⟨by decide,
   congrArg Response.statusCode
    (widget_mismatch_unauthorized stubCrypto (stubPool [rowOf (.str "u1")])
      (eventFields (.str stubToken) (.str "w2"))
      stubClaims (.str "u1") (.str "w1") (.str "s1") { rows := [rowOf (.str "u1")] }
      (by decide) (by decide) rfl rfl (by decide) rfl
      (Or.inr ⟨rowOf (.str "u1"), [], .str "u1", rfl, rfl⟩))⟩

/-- C7: for an event with both fields present whose `alpbToken` decrypts to
claims, if the session query returns a row whose `sess.user.user_id` is
strictly equal to `userId`, and `event.widgetId` is strictly equal to
`publicWidgetId`, the handler returns statusCode 200 with body `success: true,
message: "Token validated successfully"`. -/
theorem full_match_validated (c : Crypto) (pool : Pool)
    (fields : List (String × JsVal))
    (claims userId reqPublicWidgetId sessionId : JsVal) (sessionRes : QueryResult)
    (row stored : JsVal) (rest : List JsVal)
    (ha : present fields "alpbToken" = true) (hw : present fields "widgetId" = true)
    (hd : decryptToken c (field fields "alpbToken") = .ok claims)
    (hc : destructureClaims claims = .ok (userId, reqPublicWidgetId, sessionId))
    (hq : pool.query SESSION_SQL [sessionId] = .ok sessionRes)
    (hr : sessionRes.rows = row :: rest)
    (hs : rowUserId row = .ok stored)
    (hu : strictEq stored userId = true)
    (hp : strictEq (field fields "widgetId") reqPublicWidgetId = true) :
    (handler c pool (.obj fields)).1
      = { statusCode := 200, headers := headers,
          body := { success := true, message := "Token validated successfully" } } := by
  rw [handler_query_ok c pool fields claims userId reqPublicWidgetId sessionId sessionRes
    ha hw hd hc hq, denied_row sessionRes _ _ _ row stored rest hr hs, hu, hp]
  rfl

/-- C7, at a valid credential presented with its widget and a session row of
its user. -/
theorem full_match_validated_witness :
    (handler stubCrypto (stubPool [rowOf (.str "u1")])
        (eventOf (.str stubToken) (.str "w1"))).1
      = { statusCode := 200, headers := headers,
          body := { success := true, message := "Token validated successfully" } } :=
  full_match_validated stubCrypto (stubPool [rowOf (.str "u1")])
    (eventFields (.str stubToken) (.str "w1"))
    stubClaims (.str "u1") (.str "w1") (.str "s1") { rows := [rowOf (.str "u1")] }
    (rowOf (.str "u1")) (.str "u1") [] (by decide) (by decide) rfl rfl rfl rfl rfl
    (by decide) (by decide)

/-- C8: for an event with both fields present whose `alpbToken` decrypts to
claims, if the session query fails with an error of message `e`, the handler
returns statusCode 500 with body `success: false, message: "Could not validate
token: " + e`; the status is neither 403 nor 200. -/
theorem store_fault_internal_failure (c : Crypto) (pool : Pool)
    (fields : List (String × JsVal))
    (claims userId reqPublicWidgetId sessionId : JsVal) (e : String)
    (ha : present fields "alpbToken" = true) (hw : present fields "widgetId" = true)
    (hd : decryptToken c (field fields "alpbToken") = .ok claims)
    (hc : destructureClaims claims = .ok (userId, reqPublicWidgetId, sessionId))
    (hq : pool.query SESSION_SQL [sessionId] = .error e) :
    (handler c pool (.obj fields)).1
      = { statusCode := 500, headers := headers,
          body := { success := false, message := "Could not validate token: " ++ e } } ∧
    (handler c pool (.obj fields)).1.statusCode ≠ 403 ∧
    (handler c pool (.obj fields)).1.statusCode ≠ 200 := by
  rw [handler_query_error c pool fields claims userId reqPublicWidgetId sessionId e
    ha hw hd hc hq]
  simp [internalFailure]

/-- C8, at a valid credential and a store that times out. -/
theorem store_fault_internal_failure_witness :
    (handler stubCrypto downPool (eventOf (.str stubToken) (.str "w1"))).1
      = { statusCode := 500, headers := headers,
          body := { success := false,
                    message := "Could not validate token: " ++ "connect ETIMEDOUT" } } :=
  (store_fault_internal_failure stubCrypto downPool (eventFields (.str stubToken) (.str "w1"))
    stubClaims (.str "u1") (.str "w1") (.str "s1") "connect ETIMEDOUT"
    (by decide) (by decide) rfl rfl rfl).1

/-- C10: `decryptToken` uses the first two colon-delimited segments of its
input only. For `a` and `b` without a colon and every `t`, `a:b:t` decrypts to
what `a:b` decrypts to (same claims or same failure), and the handler answers
an event carrying `a:b:t` as it answers the same event carrying `a:b`. -/
theorem extra_segments_ignored (c : Crypto) (pool : Pool) (a b t : String)
    (ha : ':' ∉ a.data) (hb : ':' ∉ b.data) :
    decryptToken c (.str (a ++ ":" ++ b ++ ":" ++ t)) = decryptToken c (.str (a ++ ":" ++ b)) ∧
    ∀ f1 f2 : List (String × JsVal),
      field f1 "alpbToken" = .str (a ++ ":" ++ b ++ ":" ++ t) →
      field f2 "alpbToken" = .str (a ++ ":" ++ b) →
      field f1 "widgetId" = field f2 "widgetId" →
      (handler c pool (.obj f1)).1 = (handler c pool (.obj f2)).1 := by
  have hdec := decryptToken_of_pieces c (a ++ ":" ++ b ++ ":" ++ t) (a ++ ":" ++ b) a b
    (split t) [] (split_three a b t ha hb) (split_two a b ha hb)
  refine ⟨hdec, ?_⟩
  intro f1 f2 h1 h2 hw
  apply handler_response_congr c pool f1 f2 _ _ hw
  · rw [h1, h2, isTruthy_str _ (by simp [String.data_append]),
      isTruthy_str _ (by simp [String.data_append])]
  · rw [h1, h2]
    exact hdec

/-- C10, at a valid credential followed by a third segment: it is validated
as the credential itself is. -/
theorem extra_segments_ignored_witness :
    decryptToken stubCrypto
        (.str ("000102030405060708090a0b0c0d0e0f" ++ ":" ++ "c1a1" ++ ":" ++ "anything"))
      = .ok stubClaims ∧
    (handler stubCrypto (stubPool [rowOf (.str "u1")])
        (eventOf (.str ("000102030405060708090a0b0c0d0e0f" ++ ":" ++ "c1a1" ++ ":" ++
          "anything")) (.str "w1"))).1.statusCode = 200 :=
  ⟨((extra_segments_ignored stubCrypto (stubPool [rowOf (.str "u1")])
      "000102030405060708090a0b0c0d0e0f" "c1a1" "anything" (by decide) (by decide)).1).trans rfl,
   by decide⟩

end ValidateToken

/-! ### The mirror jobs -/

namespace MirrorJob

/-- No job module binds `bucketName`: the `try` block never returns a report. -/
theorem handlerTry_never_ok (job : Job) (env : Env) (w : World) (report : Report) :
    handlerTry job env w ≠ .ok report := by
  unfold handlerTry
  intro h
  simp only at h
  split at h
  · cases h
  · split at h
    · cases h
    · split at h
      · cases h
      · split at h
        · cases h
        · split at h
          · cases h
          · simp [lookupVar, tryScope, moduleScope, List.lookup] at h

/-- No job module binds `headers`: the `catch` block throws. -/
theorem catch_headers_unbound (env : Env) (error : JsVal) :
    lookupVar (catchScope env error) "headers" = .error "headers is not defined" := by
  simp [lookupVar, catchScope, moduleScope, List.lookup]

theorem handler_rejects (job : Job) (env : Env) (w : World) :
    handler job env w = .error "headers is not defined" := by
  unfold handler
  cases h : handlerTry job env w with
  | ok report => exact absurd h (handlerTry_never_ok job env w report)
  | error message => simp [catch_headers_unbound]

end MirrorJob

/-- C9, on the code: whatever the upstream fetch and the bucket write do, each
of the two mirror-job handlers rejects with the `ReferenceError` "headers is
not defined" and returns no report. When fetch and write succeed, the `try`
block throws on the unbound identifier `bucketName` while it builds the 200
report; the `catch` block then throws on the unbound identifier `headers`
while it builds the 500 report, as it does after every other failure. -/
theorem mirror_handlers_always_reject (env : MirrorJob.Env) (w : MirrorJob.World) :
    UpdateLeagueLeaders.handler env w = .error "headers is not defined" ∧
    UpdateStandings.handler env w = .error "headers is not defined" :=
  ⟨MirrorJob.handler_rejects _ env w, MirrorJob.handler_rejects _ env w⟩

end AlpbLambda
